import Mathlib

/-
Verification of the logs package (Go): a leveled logging dispatcher with
pluggable backends (console, file), a synchronous and an asynchronous
delivery mode, and flush/close lifecycle operations.

The embedding is a shallow one: machine state (the AppLogger struct, Go
channels, the io.Writer sinks) is passed explicitly, and every call the
dispatcher makes into a backend (WriteMsg / Flush / Destroy) or onto the
diagnostic stderr stream is recorded in an event trace.  Concurrency is
serialized: the single delivery worker goroutine (startLogger) runs at the
synchronization points of the Go code (channel send on a full queue, the
flush / close rendezvous on the signal channel with its WaitGroup), which
is the interleaving the flush / close barrier of the source is designed
around.  Go stdlib effects that are outside the repository (time.Now,
runtime.Caller plus path.Split, fmt.Sprintf rendering, json.Unmarshal,
io.Writer errors) are modeled as explicit parameters or small abstract
functions, each marked in its doc comment.
-/

namespace Logs

/-- Model of Go time.Time as far as the package reads it: the calendar
fields used by formatTimeHeader (Date, Clock, Nanosecond / 1e6). -/
structure Time where
  year : Nat
  month : Nat
  day : Nat
  hour : Nat
  minute : Nat
  sec : Nat
  ms : Nat
deriving DecidableEq, Repr

/-- log.go line 16: LevelError = iota = 0. -/
def LevelError : Int := 0

/-- log.go line 17. -/
def LevelWarning : Int := 1

/-- log.go line 18. -/
def LevelInfo : Int := 2

/-- log.go line 19. -/
def LevelDebug : Int := 3

/-- log.go line 28. -/
def levelLoggerImpl : Int := -1

/-- log.go line 24. -/
def AdapterConsole : String := "console"

/-- log.go line 25. -/
def AdapterFile : String := "file"

/-- log.go line 43, the table the Go source calls levelPrefix (that
identifier is avoided here only because of a keyword clash). -/
def levelPreTable : List String := ["[E]", "[W]", "[I]", "[D]"]

/-- Indexing into the level marker table, as levelPrefix[logLevel] does. -/
def levelPre (level : Int) : String := levelPreTable.getD level.toNat ""

/-- log.go line 77: defaultAsyncMsgLen = 1e2. -/
def defaultAsyncMsgLen : Int := 100

/-- console.go lines 14-20: newBrush returns the function wrapping a text
in the given ANSI color code. -/
def newBrush (color : String) : String → String :=
  fun text => "\x1b[" ++ color ++ "m" ++ text ++ "\x1b[0m"

/-- console.go lines 22-27: one brush per level, Error first. -/
def colors : List (String → String) :=
  [newBrush "1;31", newBrush "1;33", newBrush "1;32", newBrush "1;37"]

/-- Indexing colors[level]. -/
def colorsAt (level : Int) : String → String := (colors.getD level.toNat id)

/-- Model of Go strings.Replace(s, old, new, 1): replace the first
occurrence of old, if any. -/
def stringsReplace1 (s old repl : String) : String :=
  match s.splitOn old with
  | [] => s
  | [_] => s
  | x :: rest => x ++ repl ++ String.intercalate old rest

/-- log.go line 344. -/
def y1 : String := "0123456789"

/-- log.go line 345. -/
def y2 : String := "0123456789012345678901234567890123456789012345678901234567890123456789012345678901234567890123456789"

/-- log.go line 346. -/
def y3 : String := "0000000000111111111122222222223333333333444444444455555555556666666666777777777788888888889999999999"

/-- log.go line 347. -/
def y4 : String := "0123456789012345678901234567890123456789012345678901234567890123456789012345678901234567890123456789"

/-- log.go line 348. -/
def mo1 : String := "000000000111"

/-- log.go line 349. -/
def mo2 : String := "123456789012"

/-- log.go line 350. -/
def d1 : String := "0000000001111111111222222222233"

/-- log.go line 351. -/
def d2 : String := "1234567890123456789012345678901"

/-- log.go line 352. -/
def h1 : String := "000000000011111111112222"

/-- log.go line 353. -/
def h2 : String := "012345678901234567890123"

/-- log.go line 354. -/
def mi1 : String := "000000000011111111112222222222333333333344444444445555555555"

/-- log.go line 355. -/
def mi2 : String := "012345678901234567890123456789012345678901234567890123456789"

/-- log.go line 356. -/
def s1 : String := "000000000011111111112222222222333333333344444444445555555555"

/-- log.go line 357. -/
def s2 : String := "012345678901234567890123456789012345678901234567890123456789"

/-- log.go line 358. -/
def ns1 : String := "0123456789"

/-- Indexing a byte of one of the digit tables. -/
def strAt (s : String) (i : Nat) : Char := s.toList.getD i ' '

/-- log.go lines 361-395: builds the 24-byte timestamp header and also
returns the day and hour, exactly as the source triple does. -/
def formatTimeHeader (t : Time) : String × Nat × Nat :=
  let y := t.year
  let mo := t.month
  let d := t.day
  let h := t.hour
  let mi := t.minute
  let s := t.sec
  let ns := t.ms
  let buf : List Char :=
    [strAt y1 (y / 1000 % 10), strAt y2 (y / 100),
     strAt y3 (y - y / 100 * 100), strAt y4 (y - y / 100 * 100), '/',
     strAt mo1 (mo - 1), strAt mo2 (mo - 1), '/',
     strAt d1 (d - 1), strAt d2 (d - 1), ' ',
     strAt h1 h, strAt h2 h, ':',
     strAt mi1 mi, strAt mi2 mi, ':',
     strAt s1 s, strAt s2 s, '.',
     strAt ns1 (ns / 100), strAt ns1 (ns % 100 / 10), strAt ns1 (ns % 10), ' ']
  (String.mk buf, d, h)

/-- Model of an io.Writer (stdlib, external to the repository): the data
written so far is logged in order, and the error each Write call returns
is an arbitrary behavior of the sink, given by the writeRes field. -/
structure Writer where
  written : List String
  writeRes : String → Option String

/-- io.Writer.Write: records the payload, returns the byte count and the
sink error. -/
def Writer.write (w : Writer) (p : String) : Writer × Nat × Option String :=
  ({ w with written := w.written ++ [p] }, p.length, w.writeRes p)

/-- log.go lines 326-329: logWriter wraps an io.Writer (its mutex only
serializes writeln and is invisible to the serialized semantics). -/
structure logWriter where
  writer : Writer

/-- log.go lines 331-333. -/
def newLogWriter (wr : Writer) : logWriter := { writer := wr }

/-- log.go lines 335-341: writeln prepends the timestamp header, appends
a newline, writes it, and returns the count and error of Write. -/
def logWriter.writeln (lg : logWriter) (when : Time) (msg : String) :
    logWriter × Nat × Option String :=
  let h := (formatTimeHeader when).1
  let r := lg.writer.write (h ++ msg ++ "\n")
  ({ writer := r.1 }, r.2.1, r.2.2)

/-- console.go lines 30-34: the console backend state.  The Go field
Level is the backend-local threshold, Colorful enables the ANSI brush. -/
structure consoleWriter where
  lg : logWriter
  Level : Int
  Colorful : Bool

/-- console.go lines 56-65: WriteMsg suppresses messages above the local
threshold, optionally colors the level marker, writes the line through
writeln (whose count and error are discarded), and always returns nil. -/
def consoleWriter.WriteMsg (c : consoleWriter) (when : Time) (msg : String) (level : Int) :
    consoleWriter × Option String :=
  if level > c.Level then (c, none)
  else
    let msg1 := if c.Colorful then stringsReplace1 msg ( levelPre level) (colorsAt level ( levelPre level)) else msg
    let r := c.lg.writeln when msg1
    ({ c with lg := r.1 }, none)

/-- console.go lines 68-70: Destroy is empty. -/
def consoleWriter.Destroy (c : consoleWriter) : consoleWriter := c

/-- console.go lines 73-75: Flush is empty. -/
def consoleWriter.Flush (c : consoleWriter) : consoleWriter := c

/-- File backend state (the unnamed file-writer source, lines 13-18). -/
structure fileWriter where
  lg : logWriter
  FileName : String
  Level : Int
  Colorful : Bool

/-- Unnamed file-writer source lines 55-64: same logic as the console
WriteMsg — suppress above the local threshold, color, writeln with the
result discarded, always return nil. -/
def fileWriter.WriteMsg (f : fileWriter) (when : Time) (msg : String) (level : Int) :
    fileWriter × Option String :=
  if level > f.Level then (f, none)
  else
    let msg1 := if f.Colorful then stringsReplace1 msg ( levelPre level) (colorsAt level ( levelPre level)) else msg
    let r := f.lg.writeln when msg1
    ({ f with lg := r.1 }, none)

/-- Unnamed file-writer source lines 67-69: Destroy is empty. -/
def fileWriter.Destroy (f : fileWriter) : fileWriter := f

/-- Unnamed file-writer source lines 72-74: Flush is empty. -/
def fileWriter.Flush (f : fileWriter) : fileWriter := f

/-- Observable events of one dispatcher execution: every call the
dispatcher makes into a backend through the Logger interface, every Init
call made while attaching, and every diagnostic line printed to stderr. -/
inductive Event where
  | writeMsgEv (backend : String) (when : Time) (msg : String) (level : Int)
  | flushEv (backend : String)
  | destroyEv (backend : String)
  | initEv (backend : String) (config : String)
  | stderrEv (diag : String)
deriving DecidableEq, Repr

/-- True on WriteMsg events. -/
def Event.isWrite : Event → Bool
  | .writeMsgEv _ _ _ _ => true
  | _ => false

/-- True on backend Flush events. -/
def Event.isFlush : Event → Bool
  | .flushEv _ => true
  | _ => false

/-- True on backend Destroy events. -/
def Event.isDestroy : Event → Bool
  | .destroyEv _ => true
  | _ => false

/-- True on stderr diagnostics. -/
def Event.isStderr : Event → Bool
  | .stderrEv _ => true
  | _ => false

/-- The backend name of a WriteMsg event, none on other events. -/
def writeEvName : Event → Option String
  | .writeMsgEv n _ _ _ => some n
  | _ => none

/-- Dispatcher-side model of the Go Logger interface (log.go lines
32-37).  A backend is abstracted by the error values its Init and
WriteMsg methods return; Destroy and Flush return nothing and show up
only in the event trace. -/
structure Logger where
  InitRes : String → Option String
  WriteMsgRes : Time → String → Int → Option String

/-- log.go lines 79-82: a backend with the name it was attached under. -/
structure nameLogger where
  toLogger : Logger
  name : String

/-- Init result of the two registered writers (console.go lines 48-53 and
the file writer lines 36-52): an empty config returns nil, and the JSON
object config the dispatcher itself always passes parses into the struct
and returns nil.  Parsing of other config strings is stdlib
json.Unmarshal behavior outside the repository; it is kept abstract here
as an error, and no claim exercises it. -/
def jsonInitRes (config : String) : Option String :=
  if config = "" then none
  else if config = "\x7b\x7d" then none
  else some ("json: unmodeled config " ++ config)

/-- The console constructor registered by the init function of console.go
lines 77-79, abstracted to the interface: its WriteMsg always returns nil
(proved of the concrete writer below). -/
def consoleLoggerModel : Logger :=
  { InitRes := jsonInitRes, WriteMsgRes := fun _ _ _ => none }

/-- The file constructor registered by the init function of the file
writer, abstracted to the interface the same way. -/
def fileLoggerModel : Logger :=
  { InitRes := jsonInitRes, WriteMsgRes := fun _ _ _ => none }

/-- log.go line 46 after both init functions have run: the process-wide
registry maps "console" and "file" to their constructors. -/
def adapters (name : String) : Option Logger :=
  if name = AdapterConsole then some consoleLoggerModel
  else if name = AdapterFile then some fileLoggerModel
  else none

/-- log.go lines 85-89: the message envelope. -/
structure logMsg where
  level : Int
  msg : String
  when : Time
deriving DecidableEq, Repr

/-- A Go buffered channel of envelopes: its buffered contents in FIFO
order, its capacity, and whether close() has been called on it. -/
structure MsgChan where
  buf : List logMsg
  cap : Int
  closed : Bool
deriving DecidableEq, Repr

/-- The control-signal channel (log.go line 71).  In the serialized
semantics every signal is consumed by the worker within the operation
that sent it, so only the capacity and the closed flag remain. -/
structure SignalChan where
  cap : Int
  closed : Bool
deriving DecidableEq, Repr

/-- log.go lines 61-74: the dispatcher.  The mutex is invisible to the
serialized semantics.  The Go field named by the reserved word for the
instance-wide message pre-text is called pre here.  workers counts the
delivery-worker goroutines alive (wg.Add paired with startLogger);
msgChan is none while the Go channel is nil. -/
structure AppLogger where
  level : Int
  init : Bool
  enableFuncCallDepth : Bool
  loggerFuncCallDepth : Int
  asynchronous : Bool
  pre : String
  msgChanLen : Int
  msgChan : Option MsgChan
  signalChan : SignalChan
  workers : Nat
  outputs : Option (List nameLogger)

/-- Reading the outputs slice: ranging over a nil slice yields nothing. -/
def AppLogger.outputsList (al : AppLogger) : List nameLogger :=
  al.outputs.getD []

/-- log.go lines 133-154: setLogger.  Returns the new state, the returned
error, and the trace (an Init event when a constructor is initialized, a
stderr line when Init fails).  The duplicate-name loop returns at the
first match with the state untouched; the unknown-adapter branch returns
before any constructor runs; on Init failure the backend is not
attached. -/
def AppLogger.setLogger (al : AppLogger) (adapterName : String) (configs : List String) :
    AppLogger × Option String × List Event :=
  let config := configs.headD "\x7b\x7d"
  if al.outputsList.any (fun l => l.name == adapterName) then
    (al, some ("logs: duplicate adaptername \"" ++ adapterName ++ "\" (you have set this logger before)"), [])
  else
    match adapters adapterName with
    | none => (al, some ("logs: unknown adaptername \"" ++ adapterName ++ "\" (forgotten Register?)"), [])
    | some logAdapter =>
      match logAdapter.InitRes config with
      | some err =>
        (al, some err, [Event.initEv adapterName config,
                        Event.stderrEv ("logs.BeeLogger.SetLogger: " ++ err)])
      | none =>
        ({ al with outputs := some (al.outputsList ++ [{ toLogger := logAdapter, name := adapterName }]) },
         none, [Event.initEv adapterName config])

/-- log.go lines 97-108: NewAppLogger.  All fields not assigned get the
Go zero value; the error of the initial setLogger call is discarded, and
the only event that call can emit (its console Init) is dropped with
it. -/
def NewAppLogger (channelLens : List Int) : AppLogger :=
  let len0 := (channelLens ++ [0]).headD 0
  let len1 := if len0 ≤ 0 then defaultAsyncMsgLen else len0
  let al : AppLogger :=
    { level := LevelDebug, init := false, enableFuncCallDepth := false,
      loggerFuncCallDepth := 2, asynchronous := false, pre := "",
      msgChanLen := len1, msgChan := none,
      signalChan := { cap := 1, closed := false }, workers := 0, outputs := none }
  (al.setLogger AdapterConsole []).1

/-- log.go lines 111-130: Async.  Under the lock, a no-op when already
asynchronous; otherwise optionally resize the queue length, allocate the
message channel (and the envelope pool, which has no observable state
here), and spawn the delivery worker. -/
def AppLogger.Async (al : AppLogger) (msgLen : List Int) : AppLogger :=
  if al.asynchronous then al
  else
    let newLen :=
      match msgLen with
      | l :: _ => if l > 0 then l else al.msgChanLen
      | [] => al.msgChanLen
    { al with asynchronous := true, msgChanLen := newLen,
              msgChan := some { buf := [], cap := newLen, closed := false },
              workers := al.workers + 1 }

/-- The loop body of writeToLoggers (log.go lines 213-222): call WriteMsg
on each backend in attachment order; a non-nil error is printed to stderr
and the loop continues with the remaining backends. -/
def writeToLoggersLoop (outs : List nameLogger) (when : Time) (msg : String) (level : Int) :
    List Event :=
  match outs with
  | [] => []
  | l :: rest =>
    (Event.writeMsgEv l.name when msg level ::
      (match l.toLogger.WriteMsgRes when msg level with
       | some err => [Event.stderrEv ("unable to WriteMsg to adapter:" ++ l.name ++ ",error:" ++ err ++ "\n")]
       | none => [])) ++ writeToLoggersLoop rest when msg level

/-- log.go lines 213-222: synchronous fan-out over the outputs slice. -/
def AppLogger.writeToLoggers (al : AppLogger) (when : Time) (msg : String) (level : Int) :
    List Event :=
  writeToLoggersLoop al.outputsList when msg level

/-- The drain loop of the private flush (log.go lines 196-204): while the
message channel is non-empty, receive one envelope and deliver it through
writeToLoggers (the envelope then goes back to the pool). -/
def drainLoop (outs : List nameLogger) (buf : List logMsg) : List Event :=
  match buf with
  | [] => []
  | bm :: rest => writeToLoggersLoop outs bm.when bm.msg bm.level ++ drainLoop outs rest

/-- log.go lines 194-209: the private flush.  When asynchronous it drains
the message channel fully (delivering every buffered envelope), then
calls Flush on every backend in attachment order. -/
def AppLogger.flush (al : AppLogger) : AppLogger × List Event :=
  let step :=
    if al.asynchronous then
      match al.msgChan with
      | some ch => ({ al with msgChan := some { ch with buf := [] } },
                    drainLoop al.outputsList ch.buf)
      | none => (al, [])
    else (al, [])
  (step.1, step.2 ++ step.1.outputsList.map (fun l => Event.flushEv l.name))

/-- log.go lines 182-190: the public Flush.  When asynchronous it sends
"flush" on the signal channel (a panic if that channel is already
closed), the worker select loop (startLogger, lines 157-180) receives it
and runs the private flush, and the caller is released from wg.Wait;
when synchronous it runs the private flush directly. -/
def AppLogger.Flush (al : AppLogger) : Except String AppLogger × List Event :=
  if al.asynchronous then
    if al.signalChan.closed then (Except.error "send on closed channel", [])
    else
      let r := al.flush
      (Except.ok r.1, r.2)
  else
    let r := al.flush
    (Except.ok r.1, r.2)

/-- log.go lines 276-289 together with the close branch of the worker
(startLogger lines 164-174): Close.  Asynchronous: send "close" (panic if
the signal channel is closed); the worker drains and flushes via the
private flush, calls Destroy on every backend in attachment order, sets
outputs to nil and terminates; the caller then closes the message channel
and the signal channel (a panic if either is nil or already closed).
Synchronous: run the private flush, Destroy every backend, set outputs to
nil, close the signal channel. -/
def AppLogger.Close (al : AppLogger) : Except String AppLogger × List Event :=
  if al.asynchronous then
    if al.signalChan.closed then (Except.error "send on closed channel", [])
    else
      let r := al.flush
      let ev2 := r.1.outputsList.map (fun l => Event.destroyEv l.name)
      let al2 := { r.1 with outputs := none, workers := r.1.workers - 1 }
      match al2.msgChan with
      | none => (Except.error "close of nil channel", r.2 ++ ev2)
      | some ch =>
        if ch.closed then (Except.error "close of closed channel", r.2 ++ ev2)
        else
          (Except.ok { al2 with msgChan := some { ch with closed := true },
                                signalChan := { al2.signalChan with closed := true } },
           r.2 ++ ev2)
  else
    let r := al.flush
    let ev2 := r.1.outputsList.map (fun l => Event.destroyEv l.name)
    if r.1.signalChan.closed then (Except.error "close of closed channel", r.2 ++ ev2)
    else
      (Except.ok { r.1 with outputs := none,
                            signalChan := { r.1.signalChan with closed := true } },
       r.2 ++ ev2)

/-- Abstract model of fmt.Sprintf (Go stdlib, external to the
repository): the rendering of the arguments into the format string is
uninterpreted beyond concatenation; no claim depends on it. -/
def sprintf (format : String) (v : List String) : String :=
  format ++ String.join v

/-- log.go lines 226-274: the body of writeMsg.  Returns the poststate
(or the panic that a Go channel operation raises) and the trace; the
error value the Go function returns is added by the wrapper below.

Step by step from the source: when the init flag is unset, setLogger is
called for the default console backend and its error is discarded; the
format arguments are rendered when present; the instance pre-text, the
optional caller tag (runtime.Caller and path.Split are stdlib, modeled as
the callerTag parameter; the branch is dead in this repository since
nothing sets enableFuncCallDepth), and the level marker are prepended.
Asynchronous: an envelope is taken from the pool and, when outputs is not
nil, sent on the message channel — a send on a closed channel panics, and
a send on a full channel completes after the delivery worker drains one
envelope (delivering it); when outputs is nil the envelope goes back to
the pool and the message is dropped.  Synchronous: direct fan-out. -/
def AppLogger.writeMsgCore (al : AppLogger) (now : Time) (callerTag : String)
    (logLevel : Int) (msg0 : String) (v : List String) :
    Except String AppLogger × List Event :=
  let s0 :=
    if !al.init then
      let r := al.setLogger AdapterConsole []
      (r.1, r.2.2)
    else (al, [])
  let al1 := s0.1
  let ev0 := s0.2
  let msg1 := if v ≠ [] then sprintf msg0 v else msg0
  let msg2 := al1.pre ++ " " ++ msg1
  let msg3 := if al1.enableFuncCallDepth then "[" ++ callerTag ++ "] " ++ msg2 else msg2
  let step :=
    if logLevel = levelLoggerImpl then (LevelDebug, msg3)
    else (logLevel, levelPre logLevel ++ " " ++ msg3)
  let lvl := step.1
  let msg4 := step.2
  if al1.asynchronous then
    if al1.outputs.isSome then
      match al1.msgChan with
      | none => (Except.error "all goroutines are asleep - deadlock", ev0)
      | some ch =>
        if ch.closed then (Except.error "send on closed channel", ev0)
        else if ch.buf.length < ch.cap.toNat then
          (Except.ok { al1 with msgChan := some { ch with buf := ch.buf ++ [{ level := lvl, msg := msg4, when := now }] } },
           ev0)
        else
          match ch.buf with
          | [] =>
            (Except.ok al1, ev0 ++ al1.writeToLoggers now msg4 lvl)
          | bm :: rest =>
            (Except.ok { al1 with msgChan := some { ch with buf := rest ++ [{ level := lvl, msg := msg4, when := now }] } },
             ev0 ++ al1.writeToLoggers bm.when bm.msg bm.level)
    else
      (Except.ok al1, ev0)
  else
    (Except.ok al1, ev0 ++ al1.writeToLoggers now msg4 lvl)

/-- The full writeMsg: its single Go return statement is return nil
(line 273), so the returned error value is nil whenever the call returns
at all (the middle component; it is meaningless on the panic paths). -/
def AppLogger.writeMsg (al : AppLogger) (now : Time) (callerTag : String)
    (logLevel : Int) (msg0 : String) (v : List String) :
    Except String AppLogger × Option String × List Event :=
  let r := al.writeMsgCore now callerTag logLevel msg0 v
  (r.1, none, r.2)

/-- log.go lines 294-299: Info returns immediately when LevelInfo is
numerically above the dispatcher threshold, otherwise calls writeMsg
(whose returned error it does not use). -/
def AppLogger.Info (al : AppLogger) (now : Time) (callerTag : String)
    (format : String) (v : List String) : Except String AppLogger × List Event :=
  if LevelInfo > al.level then (Except.ok al, [])
  else
    let r := al.writeMsg now callerTag LevelInfo format v
    (r.1, r.2.2)

/-- log.go lines 301-306: Warn. -/
def AppLogger.Warn (al : AppLogger) (now : Time) (callerTag : String)
    (format : String) (v : List String) : Except String AppLogger × List Event :=
  if LevelWarning > al.level then (Except.ok al, [])
  else
    let r := al.writeMsg now callerTag LevelWarning format v
    (r.1, r.2.2)

/-- log.go lines 308-313: Debug. -/
def AppLogger.Debug (al : AppLogger) (now : Time) (callerTag : String)
    (format : String) (v : List String) : Except String AppLogger × List Event :=
  if LevelDebug > al.level then (Except.ok al, [])
  else
    let r := al.writeMsg now callerTag LevelDebug format v
    (r.1, r.2.2)

/-- log.go lines 316-321: Error. -/
def AppLogger.Error (al : AppLogger) (now : Time) (callerTag : String)
    (format : String) (v : List String) : Except String AppLogger × List Event :=
  if LevelError > al.level then (Except.ok al, [])
  else
    let r := al.writeMsg now callerTag LevelError format v
    (r.1, r.2.2)

/-- The removal loop of detach: drop the first entry whose name
matches. -/
def detachLoop (outs : List nameLogger) (name : String) : List nameLogger :=
  match outs with
  | [] => []
  | l :: rest => if l.name == name then rest else l :: detachLoop rest name

/-- Modelled from the spec: a detach operation is described in the spec
but absent from the source files — removes the first matching entry by
name, is a no-op (not an error) when the name is absent, and does not
call the shutdown hook of the removed backend (only close invokes
per-backend teardown), so its trace is empty. -/
def AppLogger.detach (al : AppLogger) (name : String) : AppLogger × List Event :=
  ({ al with outputs := al.outputs.map (fun outs => detachLoop outs name) }, [])

/-- Whether an Except result is a normal return. -/
def exOk (r : Except String AppLogger) : Bool :=
  match r with
  | .ok _ => true
  | .error _ => false

/-- The state of a normal return, with a fallback for a panic. -/
def exState (r : Except String AppLogger) (d : AppLogger) : AppLogger :=
  match r with
  | .ok a => a
  | .error _ => d

/-- Counts the WriteMsg events addressed to one backend name. -/
def countWrites (name : String) (evs : List Event) : Nat :=
  (evs.filterMap writeEvName).count name

/-- A concrete instant used by the closed witness statements. -/
def t0 : Time := ⟨2026, 1, 2, 3, 4, 5, 6⟩

/-- Every backend of the slice receives its WriteMsg call during one
fan-out. -/
theorem mem_writeToLoggersLoop {outs : List nameLogger} {l : nameLogger} (h : l ∈ outs)
    (when : Time) (msg : String) (level : Int) :
    Event.writeMsgEv l.name when msg level ∈ writeToLoggersLoop outs when msg level := by
  induction outs with
  | nil => exact absurd h (List.not_mem_nil l)
  | cons a rest ih =>
    simp only [writeToLoggersLoop]
    rcases List.mem_cons.mp h with h1 | h2
    · subst h1
      exact List.mem_append_left _ (List.mem_cons_self _ _)
    · exact List.mem_append_right _ (ih h2)

/-- A failing backend contributes its diagnostic stderr line to the
fan-out trace. -/
theorem stderr_mem_writeToLoggersLoop {outs : List nameLogger} {l : nameLogger} (h : l ∈ outs)
    {when : Time} {msg : String} {level : Int} {err : String}
    (he : l.toLogger.WriteMsgRes when msg level = some err) :
    Event.stderrEv ("unable to WriteMsg to adapter:" ++ l.name ++ ",error:" ++ err ++ "\n")
      ∈ writeToLoggersLoop outs when msg level := by
  induction outs with
  | nil => exact absurd h (List.not_mem_nil l)
  | cons a rest ih =>
    simp only [writeToLoggersLoop]
    rcases List.mem_cons.mp h with h1 | h2
    · subst h1
      rw [he]
      exact List.mem_append_left _ (by simp)
    · exact List.mem_append_right _ (ih h2)

/-- A fan-out trace holds only WriteMsg calls and stderr diagnostics. -/
theorem writeToLoggersLoop_write_or_stderr {outs : List nameLogger}
    {when : Time} {msg : String} {level : Int} :
    ∀ e ∈ writeToLoggersLoop outs when msg level, e.isWrite = true ∨ e.isStderr = true := by
  induction outs with
  | nil => intro e he; simp [writeToLoggersLoop] at he
  | cons a rest ih =>
    intro e he
    simp only [writeToLoggersLoop, List.cons_append, List.mem_cons, List.mem_append] at he
    rcases he with h1 | h2 | h3
    · subst h1; simp [Event.isWrite]
    · cases hm : a.toLogger.WriteMsgRes when msg level with
      | none => rw [hm] at h2; simp at h2
      | some err =>
        rw [hm] at h2
        simp only [List.mem_singleton] at h2
        subst h2
        simp [Event.isStderr]
    · exact ih e h3

/-- The WriteMsg calls of one fan-out, projected to backend names, are
exactly the attached names in attachment order. -/
theorem filterMap_writeToLoggersLoop (outs : List nameLogger)
    (when : Time) (msg : String) (level : Int) :
    (writeToLoggersLoop outs when msg level).filterMap writeEvName
      = outs.map (fun l => l.name) := by
  induction outs with
  | nil => simp [writeToLoggersLoop]
  | cons a rest ih =>
    simp only [writeToLoggersLoop, List.cons_append, List.map_cons]
    cases hm : a.toLogger.WriteMsgRes when msg level <;>
      simp [writeEvName, ih, hm]

/-- Under distinct backend names, each attached backend receives exactly
one WriteMsg call per fan-out. -/
theorem countWrites_writeToLoggersLoop {outs : List nameLogger} {l : nameLogger}
    (hnodup : (outs.map (fun x => x.name)).Nodup) (hl : l ∈ outs)
    (when : Time) (msg : String) (level : Int) :
    countWrites l.name (writeToLoggersLoop outs when msg level) = 1 := by
  rw [countWrites, filterMap_writeToLoggersLoop]
  exact List.count_eq_one_of_mem hnodup (List.mem_map_of_mem _ hl)

/-- Every buffered envelope is delivered to every backend by the drain
loop. -/
theorem mem_drainLoop {outs : List nameLogger} {buf : List logMsg} {bm : logMsg}
    (hb : bm ∈ buf) {l : nameLogger} (hl : l ∈ outs) :
    Event.writeMsgEv l.name bm.when bm.msg bm.level ∈ drainLoop outs buf := by
  induction buf with
  | nil => exact absurd hb (List.not_mem_nil bm)
  | cons b rest ih =>
    simp only [drainLoop, List.mem_append]
    rcases List.mem_cons.mp hb with h1 | h2
    · subst h1; exact Or.inl (mem_writeToLoggersLoop hl _ _ _)
    · exact Or.inr (ih h2)

/-- A drain trace holds only WriteMsg calls and stderr diagnostics. -/
theorem drainLoop_write_or_stderr {outs : List nameLogger} {buf : List logMsg} :
    ∀ e ∈ drainLoop outs buf, e.isWrite = true ∨ e.isStderr = true := by
  induction buf with
  | nil => intro e he; simp [drainLoop] at he
  | cons b rest ih =>
    intro e he
    rcases List.mem_append.mp (by simpa [drainLoop] using he) with h1 | h2
    · exact writeToLoggersLoop_write_or_stderr e h1
    · exact ih e h2

/-- A WriteMsg or stderr event is neither a backend Flush nor a backend
Destroy. -/
theorem write_or_stderr_not_flush {e : Event}
    (h : e.isWrite = true ∨ e.isStderr = true) :
    e.isFlush = false ∧ e.isDestroy = false := by
  cases e <;> simp [Event.isWrite, Event.isStderr, Event.isFlush, Event.isDestroy] at h ⊢

/-- setLogger with a name already attached fails with the duplicate
error, leaves the state untouched and emits nothing — the constructor
and its Init are never reached. -/
theorem setLogger_duplicate {al : AppLogger} {name : String} (configs : List String)
    (h : name ∈ al.outputsList.map (fun l => l.name)) :
    al.setLogger name configs =
      (al, some ("logs: duplicate adaptername \"" ++ name ++ "\" (you have set this logger before)"), []) := by
  unfold AppLogger.setLogger
  have hany : al.outputsList.any (fun l => l.name == name) = true := by
    rw [List.any_eq_true]
    rcases List.mem_map.mp h with ⟨l, hl, hn⟩
    exact ⟨l, hl, by simp [hn]⟩
  simp [hany]

/-- detachLoop with an absent name is the identity. -/
theorem detachLoop_not_mem {outs : List nameLogger} {name : String}
    (h : name ∉ outs.map (fun l => l.name)) : detachLoop outs name = outs := by
  induction outs with
  | nil => rfl
  | cons a rest ih =>
    simp only [List.map_cons, List.mem_cons, not_or] at h
    have hne : (a.name == name) = false := by
      simp only [beq_eq_false_iff_ne, ne_eq]
      exact fun hh => h.1 hh.symm
    simp [detachLoop, hne, ih h.2]

/-- detachLoop removes exactly the first entry carrying the name. -/
theorem detachLoop_first (pre : List nameLogger) (l : nameLogger) (post : List nameLogger)
    (name : String) (hl : l.name = name) (hpre : name ∉ pre.map (fun x => x.name)) :
    detachLoop (pre ++ l :: post) name = pre ++ post := by
  induction pre with
  | nil => simp [detachLoop, hl]
  | cons a rest ih =>
    simp only [List.map_cons, List.mem_cons, not_or] at hpre
    have hne : (a.name == name) = false := by
      simp only [beq_eq_false_iff_ne, ne_eq]
      exact fun hh => hpre.1 hh.symm
    simp only [List.cons_append, detachLoop, hne]
    simp [ih hpre.2]

/-- When every attached backend answers WriteMsg with nil, the fan-out
emits no stderr diagnostic. -/
theorem writeToLoggersLoop_no_stderr {outs : List nameLogger}
    {when : Time} {msg : String} {level : Int}
    (hnil : ∀ l ∈ outs, l.toLogger.WriteMsgRes when msg level = none) :
    ∀ e ∈ writeToLoggersLoop outs when msg level, e.isStderr = false := by
  induction outs with
  | nil => intro e he; simp [writeToLoggersLoop] at he
  | cons a rest ih =>
    intro e he
    simp only [writeToLoggersLoop, List.cons_append, List.mem_cons, List.mem_append] at he
    rcases he with h1 | h2 | h3
    · subst h1; rfl
    · rw [hnil a (List.mem_cons_self _ _)] at h2; simp at h2
    · exact ih (fun l hl => hnil l (List.mem_cons_of_mem _ hl)) e h3

/-- C4: attaching under a name already present in the backend list
returns the DuplicateBackend error and leaves the whole dispatcher state
(in particular the backend list, positions included) untouched; the
trace is empty, so no constructor is initialized, and the fan-out over
the unchanged state is identical, so the original backend keeps
receiving messages. -/
theorem c4_duplicate_attach (al : AppLogger) (name : String) (configs : List String)
    (h : name ∈ al.outputsList.map (fun l => l.name)) :
    al.setLogger name configs =
      (al, some ("logs: duplicate adaptername \"" ++ name ++ "\" (you have set this logger before)"), []) ∧
    ∀ when msg level, (al.setLogger name configs).1.writeToLoggers when msg level
        = al.writeToLoggers when msg level := by
  have hd := setLogger_duplicate configs h
  exact ⟨hd, fun when msg level => by rw [hd]⟩

/-- C4 witness: re-attaching the default console backend on a fresh
dispatcher fails with the duplicate error and changes nothing. -/
theorem c4_duplicate_attach_witness :
    (NewAppLogger []).setLogger "console" [] =
      (NewAppLogger [], some ("logs: duplicate adaptername \"" ++ "console" ++ "\" (you have set this logger before)"), []) ∧
    ∀ when msg level, ((NewAppLogger []).setLogger "console" []).1.writeToLoggers when msg level
        = (NewAppLogger []).writeToLoggers when msg level :=
  c4_duplicate_attach (NewAppLogger []) "console" [] (by decide)

/-- C5: Async is idempotent — on a dispatcher already in asynchronous
mode it returns the dispatcher unchanged: same worker count (no second
delivery worker), same queue (not reallocated or resized), identical
observable state. -/
theorem c5_async_idempotent (al : AppLogger) (msgLen : List Int)
    (h : al.asynchronous = true) :
    al.Async msgLen = al ∧
    (al.Async msgLen).workers = al.workers ∧
    (al.Async msgLen).msgChan = al.msgChan ∧
    (al.Async msgLen).msgChanLen = al.msgChanLen := by
  have heq : al.Async msgLen = al := by simp [AppLogger.Async, h]
  exact ⟨heq, by rw [heq], by rw [heq], by rw [heq]⟩

/-- C5 witness: a second Async call on a dispatcher made asynchronous
once returns it unchanged. -/
theorem c5_async_idempotent_witness :
    ((NewAppLogger []).Async []).Async [] = (NewAppLogger []).Async [] ∧
    (((NewAppLogger []).Async []).Async []).workers = ((NewAppLogger []).Async []).workers ∧
    (((NewAppLogger []).Async []).Async []).msgChan = ((NewAppLogger []).Async []).msgChan ∧
    (((NewAppLogger []).Async []).Async []).msgChanLen = ((NewAppLogger []).Async []).msgChanLen :=
  c5_async_idempotent ((NewAppLogger []).Async []) [] (by decide)

/-- C8: a freshly constructed dispatcher has threshold Debug (most
verbose), is synchronous, has an open control-signal channel of capacity
exactly 1, and exactly one attached backend — the default console backend
at index 0 — and an Info call issued immediately after construction is
delivered to that console backend as the single WriteMsg call of its
trace, with no further configuration. -/
theorem c8_new_defaults (channelLens : List Int) (now : Time) (tag fm : String) (v : List String) :
    (NewAppLogger channelLens).level = LevelDebug ∧
    (NewAppLogger channelLens).asynchronous = false ∧
    (NewAppLogger channelLens).signalChan.cap = 1 ∧
    (NewAppLogger channelLens).signalChan.closed = false ∧
    (∃ l, (NewAppLogger channelLens).outputs = some [l] ∧ l.name = AdapterConsole) ∧
    (∃ m, ((NewAppLogger channelLens).Info now tag fm v).2
        = [Event.writeMsgEv AdapterConsole now m LevelInfo]) := by
  exact ⟨rfl, rfl, rfl, rfl, ⟨_, rfl, rfl⟩, ⟨_, rfl⟩⟩

/-- C9 (spec-modelled, detach is absent from the source): detach removes
the first backend entry whose name matches, is a no-op and not an error
when the name is absent, and never emits any event — in particular it
never invokes the removed backend Destroy hook. -/
theorem c9_detach (al : AppLogger) (name : String) :
    (al.detach name).2 = [] ∧
    (name ∉ al.outputsList.map (fun l => l.name) → al.detach name = (al, [])) ∧
    (∀ pre l post, al.outputs = some (pre ++ l :: post) → l.name = name →
        name ∉ pre.map (fun x => x.name) →
        (al.detach name).1.outputs = some (pre ++ post)) := by
  refine ⟨rfl, ?_, ?_⟩
  · intro h
    have hmap : (al.outputs.map fun outs => detachLoop outs name) = al.outputs := by
      cases hout : al.outputs with
      | none => rfl
      | some outs =>
        have hnm : name ∉ outs.map (fun l => l.name) := by
          rw [AppLogger.outputsList, hout] at h
          simpa using h
        simp [detachLoop_not_mem hnm]
    unfold AppLogger.detach
    rw [hmap]
  · intro pre l post hout hl hpre
    show (al.outputs.map fun outs => detachLoop outs name) = some (pre ++ post)
    rw [hout]
    simp [detachLoop_first pre l post name hl hpre]

/-- C9 witness: detaching an absent name from a fresh dispatcher is a
no-op, and detaching the console removes the single entry. -/
theorem c9_detach_witness :
    (NewAppLogger []).detach "file" = (NewAppLogger [], []) ∧
    ((NewAppLogger []).detach "console").1.outputs = some [] := by
  constructor
  · exact (c9_detach (NewAppLogger []) "file").2.1 (by decide)
  · exact (c9_detach (NewAppLogger []) "console").2.2 []
      { toLogger := consoleLoggerModel, name := "console" } [] rfl rfl (by decide)

/-- C10: the built-in console and file writers return nil from WriteMsg
on every input — both when the message is suppressed by the backend-local
threshold and when the underlying Write fails, since the writeln result
is discarded — and consequently, for a dispatcher whose backends all
answer WriteMsg with nil on the delivered message, the per-backend
error-reporting branch emits no stderr diagnostic. -/
theorem c10_writers_never_fail (c : consoleWriter) (f : fileWriter)
    (when : Time) (msg : String) (level : Int) (al : AppLogger)
    (hnil : ∀ l ∈ al.outputsList, l.toLogger.WriteMsgRes when msg level = none) :
    (c.WriteMsg when msg level).2 = none ∧
    (f.WriteMsg when msg level).2 = none ∧
    ∀ e ∈ al.writeToLoggers when msg level, e.isStderr = false := by
  refine ⟨?_, ?_, writeToLoggersLoop_no_stderr hnil⟩
  · unfold consoleWriter.WriteMsg
    split <;> rfl
  · unfold fileWriter.WriteMsg
    split <;> rfl

/-- C10 witness: a console writer and a file writer whose underlying
sinks fail every Write still return nil, and the fresh dispatcher fan-out
emits no stderr line. -/
theorem c10_writers_never_fail_witness :
    (consoleWriter.WriteMsg { lg := { writer := { written := [], writeRes := fun _ => some "disk full" } }, Level := LevelDebug, Colorful := true } t0 "[I]  m" LevelInfo).2 = none ∧
    (fileWriter.WriteMsg { lg := { writer := { written := [], writeRes := fun _ => some "disk full" } }, FileName := "default.log", Level := LevelDebug, Colorful := true } t0 "[I]  m" LevelInfo).2 = none ∧
    ∀ e ∈ (NewAppLogger []).writeToLoggers t0 "[I]  m" LevelInfo, e.isStderr = false :=
  c10_writers_never_fail _ _ t0 "[I]  m" LevelInfo (NewAppLogger []) (by decide)

/-- The message formatting pipeline of writeMsg for an ordinary level:
argument rendering, instance pre-text, optional caller tag, level
marker. -/
def formatMsg (al : AppLogger) (tag : String) (logLevel : Int) (fm : String) (v : List String) : String :=
  let msg1 := if v ≠ [] then sprintf fm v else fm
  let msg2 := al.pre ++ " " ++ msg1
  let msg3 := if al.enableFuncCallDepth then "[" ++ tag ++ "] " ++ msg2 else msg2
  levelPre logLevel ++ " " ++ msg3

/-- In a synchronous dispatcher that has the console backend attached,
writeMsg leaves the state unchanged and its trace is exactly one fan-out
of the formatted message: the initial setLogger re-attach attempt hits
the duplicate branch and is a silent no-op. -/
theorem writeMsg_sync_console {al : AppLogger} (hsync : al.asynchronous = false)
    (hconsole : AdapterConsole ∈ al.outputsList.map (fun l => l.name))
    (now : Time) (tag : String) (logLevel : Int) (fm : String) (v : List String)
    (hlvl : ¬ logLevel = levelLoggerImpl) :
    al.writeMsg now tag logLevel fm v
        = (Except.ok al, none, al.writeToLoggers now (formatMsg al tag logLevel fm v) logLevel) := by
  unfold AppLogger.writeMsg AppLogger.writeMsgCore formatMsg
  have hset := @setLogger_duplicate al AdapterConsole [] hconsole
  cases hinit : al.init <;> simp [hinit, hset, hsync, hlvl]

/-- In an asynchronous dispatcher that has the console backend attached
and whose queue is open with room, writeMsg enqueues exactly one envelope
carrying the formatted message, the level and the instant, emitting no
event: the initial setLogger re-attach attempt is again a silent
duplicate no-op. -/
theorem writeMsg_async_enqueue {al : AppLogger} {ch : MsgChan}
    (hasync : al.asynchronous = true)
    (hconsole : AdapterConsole ∈ al.outputsList.map (fun l => l.name))
    (hch : al.msgChan = some ch) (hopen : ch.closed = false)
    (hroom : ch.buf.length < ch.cap.toNat)
    (now : Time) (tag : String) (logLevel : Int) (fm : String) (v : List String)
    (hlvl : ¬ logLevel = levelLoggerImpl) :
    al.writeMsg now tag logLevel fm v
      = (Except.ok { al with msgChan := some { ch with
            buf := ch.buf ++ [{ level := logLevel, msg := formatMsg al tag logLevel fm v, when := now }] } },
         none, []) := by
  have hsome : al.outputs.isSome = true := by
    cases ho : al.outputs with
    | none =>
      exfalso
      rw [AppLogger.outputsList, ho] at hconsole
      simp at hconsole
    | some outs => rfl
  unfold AppLogger.writeMsg AppLogger.writeMsgCore formatMsg
  have hset := @setLogger_duplicate al AdapterConsole [] hconsole
  cases hinit : al.init <;>
    simp [hinit, hset, hasync, hch, hopen, hroom, hsome, hlvl]

/-- The level filter property of one leveled entry point at its fixed
severity: above the dispatcher threshold the call returns at once with
the state unchanged and an empty trace (no formatting, no delivery); at
or below it, a synchronous dispatcher delivers exactly one WriteMsg per
attached backend, and an asynchronous dispatcher with an open, non-full
queue enqueues exactly one envelope carrying the formatted message and
its level while emitting no event. -/
def levelFilterProp
    (call : AppLogger → Time → String → String → List String → Except String AppLogger × List Event)
    (lvl : Int) (al : AppLogger) (now : Time) (tag fm : String) (v : List String) : Prop :=
  (lvl > al.level → call al now tag fm v = (Except.ok al, [])) ∧
  (lvl ≤ al.level → al.asynchronous = false →
      ∀ l ∈ al.outputsList, countWrites l.name (call al now tag fm v).2 = 1) ∧
  (lvl ≤ al.level → ∀ ch, al.asynchronous = true → al.msgChan = some ch →
      ch.closed = false → ch.buf.length < ch.cap.toNat →
      call al now tag fm v
        = (Except.ok { al with msgChan := some { ch with
              buf := ch.buf ++ [{ level := lvl, msg := formatMsg al tag lvl fm v, when := now }] } }, []))

/-- Any entry point of the shape guard-then-writeMsg satisfies the level
filter property at its severity. -/
theorem levelFilterProp_intro {al : AppLogger} {now : Time} {tag fm : String} {v : List String}
    (hconsole : AdapterConsole ∈ al.outputsList.map (fun l => l.name))
    (hnodup : (al.outputsList.map (fun l => l.name)).Nodup)
    {call : AppLogger → Time → String → String → List String → Except String AppLogger × List Event}
    {lvl : Int} (hlvl : ¬ lvl = levelLoggerImpl)
    (hcall : call al now tag fm v =
      if lvl > al.level then (Except.ok al, [])
      else ((al.writeMsg now tag lvl fm v).1, (al.writeMsg now tag lvl fm v).2.2)) :
    levelFilterProp call lvl al now tag fm v := by
  refine ⟨?_, ?_, ?_⟩
  · intro h
    rw [hcall, if_pos h]
  · intro hle hsync l hl
    rw [hcall, if_neg (not_lt.mpr hle),
        writeMsg_sync_console hsync hconsole now tag lvl fm v hlvl]
    exact countWrites_writeToLoggersLoop hnodup hl now _ lvl
  · intro hle ch hasync hch hopen hroom
    rw [hcall, if_neg (not_lt.mpr hle),
        writeMsg_async_enqueue hasync hconsole hch hopen hroom now tag lvl fm v hlvl]

/-- C3: for every log call — Info, Warn, Debug and Error alike — a
message reaches a backend write path iff its level passes both filters.
Dispatcher filter, at each entry point: above the threshold the call
returns immediately with the state unchanged and an empty trace (no
formatting, no delivery); at or below it, a synchronous dispatcher
delivers exactly one WriteMsg per attached backend, and an asynchronous
dispatcher enqueues exactly one envelope, which the worker fan-out then
delivers with exactly one WriteMsg per attached backend (fifth
conjunct).  Backend filter: the concrete console writer performs no
underlying write when its own threshold is stricter than the message
level (a backend set to Error writes nothing for an Info message), and
performs exactly one write when its threshold passes. -/
theorem c3_level_filtering (al : AppLogger) (now : Time) (tag fm : String) (v : List String)
    (hconsole : AdapterConsole ∈ al.outputsList.map (fun l => l.name))
    (hnodup : (al.outputsList.map (fun l => l.name)).Nodup) :
    levelFilterProp AppLogger.Info LevelInfo al now tag fm v ∧
    levelFilterProp AppLogger.Warn LevelWarning al now tag fm v ∧
    levelFilterProp AppLogger.Debug LevelDebug al now tag fm v ∧
    levelFilterProp AppLogger.Error LevelError al now tag fm v ∧
    (∀ (bm : logMsg), ∀ l ∈ al.outputsList,
        countWrites l.name (al.writeToLoggers bm.when bm.msg bm.level) = 1) ∧
    (∀ (c : consoleWriter) (when : Time) (msg : String) (level : Int),
        (level > c.Level → c.WriteMsg when msg level = (c, none)) ∧
        (level ≤ c.Level → ∃ line, (c.WriteMsg when msg level).1.lg.writer.written
            = c.lg.writer.written ++ [line])) := by
  refine ⟨levelFilterProp_intro hconsole hnodup (by decide) rfl,
          levelFilterProp_intro hconsole hnodup (by decide) rfl,
          levelFilterProp_intro hconsole hnodup (by decide) rfl,
          levelFilterProp_intro hconsole hnodup (by decide) rfl,
          fun bm l hl => countWrites_writeToLoggersLoop hnodup hl bm.when bm.msg bm.level,
          ?_⟩
  intro c when msg level
  constructor
  · intro hgt
    unfold consoleWriter.WriteMsg
    rw [if_pos hgt]
  · intro hle
    unfold consoleWriter.WriteMsg
    rw [if_neg (not_lt.mpr hle)]
    refine ⟨((formatTimeHeader when).1 ++
      (if c.Colorful then stringsReplace1 msg ( levelPre level) (colorsAt level ( levelPre level)) else msg)) ++ "\n", ?_⟩
    simp [logWriter.writeln, Writer.write]

/-- C3 witness: the filter property of all four entry points holds on a
fresh synchronous dispatcher and on the same dispatcher switched to
asynchronous mode, together with the exactly-once worker fan-out and the
concrete console filter. -/
theorem c3_level_filtering_witness :
    (levelFilterProp AppLogger.Info LevelInfo (NewAppLogger []) t0 "" "m" [] ∧
     levelFilterProp AppLogger.Warn LevelWarning (NewAppLogger []) t0 "" "m" [] ∧
     levelFilterProp AppLogger.Debug LevelDebug (NewAppLogger []) t0 "" "m" [] ∧
     levelFilterProp AppLogger.Error LevelError (NewAppLogger []) t0 "" "m" [] ∧
     (∀ (bm : logMsg), ∀ l ∈ (NewAppLogger []).outputsList,
        countWrites l.name ((NewAppLogger []).writeToLoggers bm.when bm.msg bm.level) = 1) ∧
     (∀ (c : consoleWriter) (when : Time) (msg : String) (level : Int),
        (level > c.Level → c.WriteMsg when msg level = (c, none)) ∧
        (level ≤ c.Level → ∃ line, (c.WriteMsg when msg level).1.lg.writer.written
            = c.lg.writer.written ++ [line]))) ∧
    (levelFilterProp AppLogger.Info LevelInfo ((NewAppLogger []).Async []) t0 "" "m" [] ∧
     levelFilterProp AppLogger.Warn LevelWarning ((NewAppLogger []).Async []) t0 "" "m" [] ∧
     levelFilterProp AppLogger.Debug LevelDebug ((NewAppLogger []).Async []) t0 "" "m" [] ∧
     levelFilterProp AppLogger.Error LevelError ((NewAppLogger []).Async []) t0 "" "m" [] ∧
     (∀ (bm : logMsg), ∀ l ∈ ((NewAppLogger []).Async []).outputsList,
        countWrites l.name (((NewAppLogger []).Async []).writeToLoggers bm.when bm.msg bm.level) = 1) ∧
     (∀ (c : consoleWriter) (when : Time) (msg : String) (level : Int),
        (level > c.Level → c.WriteMsg when msg level = (c, none)) ∧
        (level ≤ c.Level → ∃ line, (c.WriteMsg when msg level).1.lg.writer.written
            = c.lg.writer.written ++ [line]))) :=
  ⟨c3_level_filtering (NewAppLogger []) t0 "" "m" [] (by decide) (by decide),
   c3_level_filtering ((NewAppLogger []).Async []) t0 "" "m" [] (by decide) (by decide)⟩

/-- C6: during the fan-out of one message every attached backend receives
its WriteMsg call in attachment order regardless of other backend
failures (the projected call names equal the attachment list), a failing
backend contributes its stderr diagnostic, and writeMsg always returns
nil to its caller — the leveled entry points can never observe a backend
error. -/
theorem c6_failure_isolation (al : AppLogger) (when : Time) (msg : String) (level : Int)
    (now : Time) (tag fm : String) (v : List String) (logLevel : Int) :
    (∀ l ∈ al.outputsList,
        Event.writeMsgEv l.name when msg level ∈ al.writeToLoggers when msg level) ∧
    ((al.writeToLoggers when msg level).filterMap writeEvName
        = al.outputsList.map (fun l => l.name)) ∧
    (∀ l ∈ al.outputsList, ∀ err, l.toLogger.WriteMsgRes when msg level = some err →
        Event.stderrEv ("unable to WriteMsg to adapter:" ++ l.name ++ ",error:" ++ err ++ "\n")
          ∈ al.writeToLoggers when msg level) ∧
    ((al.writeMsg now tag logLevel fm v).2.1 = none) := by
  exact ⟨fun l hl => mem_writeToLoggersLoop hl _ _ _,
         filterMap_writeToLoggersLoop _ _ _ _,
         fun l hl err he => stderr_mem_writeToLoggersLoop hl he, rfl⟩

/-- A backend whose WriteMsg always fails, used to exercise the failure
isolation of the fan-out. -/
def failingLogger : Logger :=
  { InitRes := fun _ => none, WriteMsgRes := fun _ _ _ => some "boom" }

/-- A dispatcher with the default console backend followed by a failing
backend named bad. -/
def twoBackendAl : AppLogger :=
  { NewAppLogger [] with
    outputs := some ((NewAppLogger []).outputsList ++ [{ toLogger := failingLogger, name := "bad" }]) }

/-- C6 witness: with a failing backend attached after the console, both
backends receive the WriteMsg call, the failure is reported on stderr,
and writeMsg still returns nil. -/
theorem c6_failure_isolation_witness :
    Event.writeMsgEv "console" t0 "m" LevelInfo ∈ twoBackendAl.writeToLoggers t0 "m" LevelInfo ∧
    Event.writeMsgEv "bad" t0 "m" LevelInfo ∈ twoBackendAl.writeToLoggers t0 "m" LevelInfo ∧
    Event.stderrEv ("unable to WriteMsg to adapter:" ++ "bad" ++ ",error:" ++ "boom" ++ "\n")
      ∈ twoBackendAl.writeToLoggers t0 "m" LevelInfo ∧
    (twoBackendAl.writeMsg t0 "" LevelInfo "m" []).2.1 = none := by
  have h := c6_failure_isolation twoBackendAl t0 "m" LevelInfo t0 "" "m" [] LevelInfo
  exact ⟨h.1 { toLogger := consoleLoggerModel, name := "console" } (List.Mem.head _),
         h.1 { toLogger := failingLogger, name := "bad" } (List.Mem.tail _ (List.Mem.head _)),
         h.2.2.1 { toLogger := failingLogger, name := "bad" }
           (List.Mem.tail _ (List.Mem.head _)) "boom" rfl,
         h.2.2.2⟩

/-- C2: in asynchronous mode, Flush delivers every message buffered in
the queue to every attached backend strictly before any backend Flush
runs, the backend Flush calls are the final events before the blocked
caller is released, and the queue is empty when Flush returns — so every
message enqueued before the call has been delivered to every backend. -/
theorem c2_flush_barrier (al : AppLogger) (ch : MsgChan)
    (hasync : al.asynchronous = true)
    (hch : al.msgChan = some ch)
    (hsig : al.signalChan.closed = false) :
    ∃ al2 evD,
      al.Flush = (Except.ok al2, evD ++ al.outputsList.map (fun l => Event.flushEv l.name)) ∧
      al2.msgChan = some { ch with buf := [] } ∧
      al2.outputs = al.outputs ∧
      (∀ bm ∈ ch.buf, ∀ l ∈ al.outputsList,
          Event.writeMsgEv l.name bm.when bm.msg bm.level ∈ evD) ∧
      (∀ e ∈ evD, e.isFlush = false ∧ e.isDestroy = false) := by
  refine ⟨{ al with msgChan := some { ch with buf := [] } }, drainLoop al.outputsList ch.buf,
          ?_, rfl, rfl, fun bm hb l hl => mem_drainLoop hb hl,
          fun e he => write_or_stderr_not_flush (drainLoop_write_or_stderr e he)⟩
  unfold AppLogger.Flush AppLogger.flush
  simp [hasync, hch, hsig, AppLogger.outputsList]

/-- An asynchronous dispatcher holding one buffered Info message, built
by construction, Async, and one Info call. -/
def asyncBufAl : AppLogger :=
  exState ((((NewAppLogger []).Async []).Info t0 "" "m" []).1) (NewAppLogger [])

/-- The queue of asyncBufAl. -/
def bufCh : MsgChan :=
  { buf := [{ level := LevelInfo, msg := "[I]  m", when := t0 }], cap := 100, closed := false }

/-- C2 witness: flushing the one-message asynchronous dispatcher delivers
the buffered message, then flushes the console backend, leaving an empty
queue. -/
theorem c2_flush_barrier_witness :
    ∃ al2 evD,
      asyncBufAl.Flush = (Except.ok al2, evD ++ asyncBufAl.outputsList.map (fun l => Event.flushEv l.name)) ∧
      al2.msgChan = some { bufCh with buf := [] } ∧
      al2.outputs = asyncBufAl.outputs ∧
      (∀ bm ∈ bufCh.buf, ∀ l ∈ asyncBufAl.outputsList,
          Event.writeMsgEv l.name bm.when bm.msg bm.level ∈ evD) ∧
      (∀ e ∈ evD, e.isFlush = false ∧ e.isDestroy = false) :=
  c2_flush_barrier asyncBufAl bufCh (by decide) (by decide) (by decide)

/-- C7: on Close — by the close signal to the worker when asynchronous,
directly when synchronous — the queue drain and the backend Flush calls
come first, then Destroy is called exactly once per attached backend in
attachment order as the final events of the trace (so no backend
receives a WriteMsg after its Destroy within the close), and the backend
list is cleared. -/
theorem c7_close_destroys (al : AppLogger)
    (hsig : al.signalChan.closed = false)
    (hch : al.asynchronous = true → ∃ ch, al.msgChan = some ch ∧ ch.closed = false) :
    ∃ al2 evPre,
      al.Close = (Except.ok al2, evPre ++ al.outputsList.map (fun l => Event.destroyEv l.name)) ∧
      al2.outputs = none ∧
      (∃ evDrain, evPre = evDrain ++ al.outputsList.map (fun l => Event.flushEv l.name) ∧
          ∀ e ∈ evDrain, e.isWrite = true ∨ e.isStderr = true) ∧
      (∀ e ∈ evPre, e.isDestroy = false) := by
  cases hasync : al.asynchronous with
  | false =>
    have hclose : al.Close =
        (Except.ok { al with outputs := none,
                             signalChan := { al.signalChan with closed := true } },
         al.outputsList.map (fun l => Event.flushEv l.name)
           ++ al.outputsList.map (fun l => Event.destroyEv l.name)) := by
      unfold AppLogger.Close AppLogger.flush
      simp [hasync, hsig, AppLogger.outputsList]
    refine ⟨_, al.outputsList.map (fun l => Event.flushEv l.name), hclose, rfl,
            ⟨[], by simp, by intro e he; simp at he⟩, ?_⟩
    intro e he
    rcases List.mem_map.mp he with ⟨l, _, rfl⟩
    rfl
  | true =>
    rcases hch hasync with ⟨ch, hcheq, hchopen⟩
    have hclose : al.Close =
        (Except.ok { al with msgChan := some { buf := [], cap := ch.cap, closed := true },
                             outputs := none, workers := al.workers - 1,
                             signalChan := { al.signalChan with closed := true } },
         (drainLoop al.outputsList ch.buf
            ++ al.outputsList.map (fun l => Event.flushEv l.name))
           ++ al.outputsList.map (fun l => Event.destroyEv l.name)) := by
      unfold AppLogger.Close AppLogger.flush
      simp [hasync, hsig, hcheq, hchopen, AppLogger.outputsList]
    refine ⟨_, drainLoop al.outputsList ch.buf ++ al.outputsList.map (fun l => Event.flushEv l.name),
            hclose, rfl, ⟨drainLoop al.outputsList ch.buf, rfl, drainLoop_write_or_stderr⟩, ?_⟩
    intro e he
    rcases List.mem_append.mp he with h1 | h2
    · exact (write_or_stderr_not_flush (drainLoop_write_or_stderr e h1)).2
    · rcases List.mem_map.mp h2 with ⟨l, _, rfl⟩
      rfl

/-- C7 witness: closing the one-message asynchronous dispatcher delivers
the buffered message, flushes, then destroys the console backend last and
clears the list. -/
theorem c7_close_destroys_witness :
    ∃ al2 evPre,
      asyncBufAl.Close = (Except.ok al2, evPre ++ asyncBufAl.outputsList.map (fun l => Event.destroyEv l.name)) ∧
      al2.outputs = none ∧
      (∃ evDrain, evPre = evDrain ++ asyncBufAl.outputsList.map (fun l => Event.flushEv l.name) ∧
          ∀ e ∈ evDrain, e.isWrite = true ∨ e.isStderr = true) ∧
      (∀ e ∈ evPre, e.isDestroy = false) :=
  c7_close_destroys asyncBufAl (by decide)
    (fun _ => ⟨bufCh, by decide, by decide⟩)

/-- C1 fails on the code: the init flag of the dispatcher is read in
writeMsg but never set anywhere, so after Close a leveled log call first
re-attaches a default console backend; in synchronous mode the message is
then delivered to that backend with a WriteMsg call, and in asynchronous
mode the call panics sending on the closed message channel — where the
claim requires the call to complete without panicking and without any
backend method being called.  Both behaviors evaluated at the concrete
failing input. -/
theorem c1_log_after_close_not_inert :
    countWrites AdapterConsole
      ((exState ((NewAppLogger []).Close).1 (NewAppLogger [])).Info t0 "" "x" []).2 = 1 ∧
    exOk ((exState (((NewAppLogger []).Async []).Close).1 (NewAppLogger [])).Info t0 "" "x" []).1
      = false := by
  decide

end Logs
